import Mathlib

/-!
Verification development for the per-flow feature-extraction core
(subscription module: features.rs, connection_features.rs, conn_features.rs,
packet_features.rs). Packets are modelled at the parser interface boundary:
a packet view carries its parsed layers as optional nested data, and a
missing layer corresponds to a parse error of the external protocol parsers.
Machine floats are modelled over the rationals; an f64 NaN sentinel is
modelled as Option.none. Rust panics are modelled as Option.none results.
-/

/-- TCP header view (external parser interface): numeric fields and flag bits
as exposed by the tcp accessor methods used in the subscription module. -/
structure TcpData where
  src_port : Nat
  dst_port : Nat
  seq_no : Nat
  ack_no : Nat
  data_offset : Nat
  reserved : Nat
  window : Nat
  checksum : Nat
  urgent_pointer : Nat
  cwr : Bool
  ece : Bool
  urg : Bool
  ack : Bool
  psh : Bool
  rst : Bool
  syn : Bool
  fin : Bool
deriving DecidableEq

/-- Modelled from the spec: the tcp.synack() accessor of the external
protocol-parsing layer; true when the flags indicate SYN+ACK. -/
def TcpData.synack (t : TcpData) : Bool := t.syn && t.ack

/-- IPv4 header view (external parser interface); tcp is the next layer,
absent when the packet carries no TCP header. -/
structure Ipv4Data where
  ihl : Nat
  dscp : Nat
  ecn : Nat
  total_length : Nat
  identification : Nat
  fragment_offset : Nat
  time_to_live : Nat
  protocol : Nat
  header_checksum : Nat
  src_addr : Nat
  dst_addr : Nat
  rf : Bool
  df : Bool
  mf : Bool
  tcp : Option TcpData
deriving DecidableEq

/-- Ethernet header view; ipv4 is the next layer, absent when parsing fails. -/
structure EthData where
  src : Nat
  dst : Nat
  ipv4 : Option Ipv4Data
deriving DecidableEq

/-- An L4Pdu as delivered to the Trackable callbacks: direction flag
(true = originator to responder), the mbuf timestamp, and the parsed
layer stack (eth = none models a malformed / unparseable frame). -/
structure L4Pdu where
  dir : Bool
  timestamp : Nat
  eth : Option EthData
deriving DecidableEq

/-- Cast of a Rust bool into u32 (`.into()`). -/
def b2n (b : Bool) : Nat := if b then 1 else 0

/-! ## features.rs: TrackedFeatures

All per-metric cfg features are taken as enabled (the consolidated engine of
the spec); each field mirrors one field of the TrackedFeatures struct.
f64::NAN initial values of timestamps / extrema are modelled as none. -/

structure TrackedFeatures where
  sni : String
  cnt : Nat
  syn_ts : Option ℚ
  syn_ack_ts : Option ℚ
  ack_ts : Option ℚ
  s_last_ts : Option ℚ
  d_last_ts : Option ℚ
  s_pkt_cnt : ℚ
  d_pkt_cnt : ℚ
  s_bytes_sum : ℚ
  d_bytes_sum : ℚ
  s_ttl_sum : ℚ
  d_ttl_sum : ℚ
  proto : Option ℚ
  s_bytes_min : Option ℚ
  d_bytes_min : Option ℚ
  s_bytes_max : Option ℚ
  d_bytes_max : Option ℚ
  s_bytes_hist : List ℚ
  d_bytes_hist : List ℚ
  s_mac : Nat
  d_mac : Nat
deriving DecidableEq

/-- TrackedFeatures::new: NAN-initialised timestamps and extrema (none),
zero counters, empty histograms, MacAddr::zero() addresses. -/
def TrackedFeatures.init : TrackedFeatures :=
  { sni := "", cnt := 0, syn_ts := none, syn_ack_ts := none, ack_ts := none,
    s_last_ts := none, d_last_ts := none, s_pkt_cnt := 0, d_pkt_cnt := 0,
    s_bytes_sum := 0, d_bytes_sum := 0, s_ttl_sum := 0, d_ttl_sum := 0,
    proto := none, s_bytes_min := none, d_bytes_min := none,
    s_bytes_max := none, d_bytes_max := none, s_bytes_hist := [],
    d_bytes_hist := [], s_mac := 0, d_mac := 0 }

/-- f64::min with a NAN accumulator: NAN.min(x) = x, a.min(x) = min a x. -/
def fMin (acc : Option ℚ) (x : ℚ) : Option ℚ :=
  match acc with
  | none => some x
  | some a => some (min a x)

/-- f64::max with a NAN accumulator: NAN.max(x) = x, a.max(x) = max a x. -/
def fMax (acc : Option ℚ) (x : ℚ) : Option ℚ :=
  match acc with
  | none => some x
  | some a => some (max a x)

/-- Originator-direction branch of TrackedFeatures::update (after the eth
and ipv4 layers parsed): MAC capture on the first packet, first-packet syn
timestamp, running sums and extrema, the ack-timestamp pattern match (which
returns early on a tcp parse miss, skipping the proto assignment), and the
proto assignment. -/
def updOrig (s : TrackedFeatures) (curr_ts : ℚ) (eth : EthData)
    (ip : Ipv4Data) : TrackedFeatures :=
  let s := if s.cnt = 1 then { s with s_mac := eth.src, d_mac := eth.dst } else s
  let s := if s.syn_ts = none then { s with syn_ts := some curr_ts } else s
  let s := { s with
    s_last_ts := some curr_ts,
    s_pkt_cnt := s.s_pkt_cnt + 1,
    s_bytes_sum := s.s_bytes_sum + (ip.total_length : ℚ),
    s_bytes_min := fMin s.s_bytes_min (ip.total_length : ℚ),
    s_bytes_max := fMax s.s_bytes_max (ip.total_length : ℚ),
    s_bytes_hist := s.s_bytes_hist ++ [(ip.total_length : ℚ)],
    s_ttl_sum := s.s_ttl_sum + (ip.time_to_live : ℚ) }
  if s.syn_ack_ts ≠ none ∧ s.ack_ts = none then
    match ip.tcp with
    | none => s
    | some tcp =>
      let s := if tcp.ack then { s with ack_ts := some curr_ts } else s
      { s with proto := some (ip.protocol : ℚ) }
  else { s with proto := some (ip.protocol : ℚ) }

/-- Responder-direction branch of TrackedFeatures::update: running sums and
extrema and the syn-ack timestamp pattern match (tcp parse miss returns
early, keeping the updates already made). -/
def updResp (s : TrackedFeatures) (curr_ts : ℚ) (ip : Ipv4Data) :
    TrackedFeatures :=
  let s := { s with
    d_last_ts := some curr_ts,
    d_pkt_cnt := s.d_pkt_cnt + 1,
    d_bytes_sum := s.d_bytes_sum + (ip.total_length : ℚ),
    d_bytes_min := fMin s.d_bytes_min (ip.total_length : ℚ),
    d_bytes_max := fMax s.d_bytes_max (ip.total_length : ℚ),
    d_bytes_hist := s.d_bytes_hist ++ [(ip.total_length : ℚ)],
    d_ttl_sum := s.d_ttl_sum + (ip.time_to_live : ℚ) }
  if s.syn_ack_ts = none then
    match ip.tcp with
    | none => s
    | some tcp =>
      if tcp.synack then { s with syn_ack_ts := some curr_ts } else s
  else s

/-- TrackedFeatures::update. The packet counter is incremented before any
parsing; an early Err return (`?` on a parse miss) keeps the mutations made
so far, and the caller discards the Err (`update(pdu).unwrap_or(())`), so
the whole step is a total state transformer. curr_ts is the per-packet clock
reading: rte_rdtsc scaled by the calibration factor in timing builds, the
embedded mbuf timestamp otherwise. -/
def updateTF (s : TrackedFeatures) (curr_ts : ℚ) (seg : L4Pdu) :
    TrackedFeatures :=
  let s := { s with cnt := s.cnt + 1 }
  match seg.eth with
  | none => s
  | some eth =>
    match eth.ipv4 with
    | none => s
    | some ip =>
      if seg.dir then updOrig s curr_ts eth ip else updResp s curr_ts ip

/-- Feed a list of (clock reading, packet) pairs through update. -/
def runTF (s : TrackedFeatures) (l : List (ℚ × L4Pdu)) : TrackedFeatures :=
  l.foldl (fun s pr => updateTF s pr.1 pr.2) s

/-- Session data as delivered by the external protocol layer: a TLS session
carrying the server name, or some other protocol session. -/
inductive SessionKind where
  | tls (sni : String)
  | other
deriving DecidableEq

/-- TrackedFeatures::on_match: a TLS session overwrites the stored sni
unconditionally; any other session is ignored. (The on_match bodies of
connection_features.rs and conn_features.rs are identical.) -/
def onMatchTF (s : TrackedFeatures) (sess : SessionKind) : TrackedFeatures :=
  match sess with
  | .tls n => { s with sni := n }
  | .other => s

/-- NaN-propagating f64 subtraction on optional values. -/
def oSub (a b : Option ℚ) : Option ℚ :=
  match a, b with
  | some x, some y => some (x - y)
  | _, _ => none

/-- NaN-propagating f64 addition on optional values. -/
def oAdd (a b : Option ℚ) : Option ℚ :=
  match a, b with
  | some x, some y => some (x + y)
  | _, _ => none

/-- f64::max on optional values: max(NAN, x) = x. -/
def oFMax (a b : Option ℚ) : Option ℚ :=
  match a, b with
  | some x, some y => some (max x y)
  | some x, none => some x
  | none, some y => some y
  | none, none => none

/-- f64 division with none for a non-finite result (NaN operand or zero
divisor, where f64 yields NaN or an infinity). -/
def oDiv (a b : Option ℚ) : Option ℚ :=
  match a, b with
  | some x, some y => if y = 0 then none else some (x / y)
  | _, _ => none

/-- The median helper of features.rs: sort, middle element for odd length,
mean of the two central elements for even length; NAN (none) when empty. -/
def insortQ (x : ℚ) : List ℚ → List ℚ
  | [] => [x]
  | y :: ys => if x ≤ y then x :: y :: ys else y :: insortQ x ys

/-- Insertion sort on rationals (the behaviour of sort_by with partial_cmp,
whose unwrap cannot fail here: all stored samples are casts of header
integers, never NaN). -/
def sortListQ (l : List ℚ) : List ℚ := l.foldr insortQ []

/-- fn median in features.rs. -/
def medianF (numbers : List ℚ) : Option ℚ :=
  if numbers = [] then none
  else
    let s := sortListQ numbers
    let mid := s.length / 2
    if s.length % 2 = 1 then some (s.getD mid 0)
    else some ((s.getD (mid - 1) 0 + s.getD mid 0) / 2)

/-- The Features record built by extract_features; f64 values that can be
NaN or infinite are optional. -/
structure FeaturesRec where
  dur : Option ℚ
  proto : Option ℚ
  s_bytes_sum : ℚ
  d_bytes_sum : ℚ
  s_ttl_mean : Option ℚ
  d_ttl_mean : Option ℚ
  s_load : Option ℚ
  d_load : Option ℚ
  s_pkt_cnt : ℚ
  d_pkt_cnt : ℚ
  s_bytes_mean : Option ℚ
  d_bytes_mean : Option ℚ
  s_iat_mean : Option ℚ
  d_iat_mean : Option ℚ
  tcp_rtt : Option ℚ
  syn_ack : Option ℚ
  ack_dat : Option ℚ
  s_bytes_min : Option ℚ
  d_bytes_min : Option ℚ
  s_bytes_max : Option ℚ
  d_bytes_max : Option ℚ
  s_bytes_med : Option ℚ
  d_bytes_med : Option ℚ
  s_mac : Nat
  d_mac : Nat
  sni : String
deriving DecidableEq

/-- Finite-count division used by the mean fields: a plain f64 quotient,
none when the divisor is zero (f64 yields NaN or an infinity there). -/
def qDiv (a b : ℚ) : Option ℚ := if b = 0 then none else some (a / b)

/-- TrackedFeatures::extract_features. -/
def extractTF (s : TrackedFeatures) : FeaturesRec :=
  let dur := oSub (oFMax s.s_last_ts s.d_last_ts) s.syn_ts
  let syn_ack := oSub s.syn_ack_ts s.syn_ts
  let ack_dat := oSub s.ack_ts s.syn_ack_ts
  { dur := dur,
    proto := s.proto,
    s_bytes_sum := s.s_bytes_sum,
    d_bytes_sum := s.d_bytes_sum,
    s_ttl_mean := qDiv s.s_ttl_sum s.s_pkt_cnt,
    d_ttl_mean := qDiv s.d_ttl_sum s.d_pkt_cnt,
    s_load := oDiv (some (s.s_bytes_sum * 8000000000)) dur,
    d_load := oDiv (some (s.d_bytes_sum * 8000000000)) dur,
    s_pkt_cnt := s.s_pkt_cnt,
    d_pkt_cnt := s.d_pkt_cnt,
    s_bytes_mean := qDiv s.s_bytes_sum s.s_pkt_cnt,
    d_bytes_mean := qDiv s.d_bytes_sum s.d_pkt_cnt,
    s_iat_mean := oDiv (oSub s.s_last_ts s.syn_ts) (some (s.s_pkt_cnt - 1)),
    d_iat_mean := oDiv (oSub s.d_last_ts s.syn_ack_ts) (some (s.d_pkt_cnt - 1)),
    tcp_rtt := oAdd syn_ack ack_dat,
    syn_ack := syn_ack,
    ack_dat := ack_dat,
    s_bytes_min := s.s_bytes_min,
    d_bytes_min := s.d_bytes_min,
    s_bytes_max := s.s_bytes_max,
    d_bytes_max := s.d_bytes_max,
    s_bytes_med := medianF s.s_bytes_hist,
    d_bytes_med := medianF s.d_bytes_hist,
    s_mac := s.s_mac,
    d_mac := s.d_mac,
    sni := s.sni }

/-! ## connection_features.rs: FlowFeatures and the aggregate catalogue -/

/-- u32 wrap-around (release-build overflow semantics). -/
def wrap32 (n : Nat) : Nat := n % 4294967296

/-- u32 wrapping subtraction. -/
def wsub32 (a b : Nat) : Nat :=
  (a % 4294967296 + 4294967296 - b % 4294967296) % 4294967296

/-- The Rust `as u32` cast of a nonnegative f64 value: truncation, saturating
at u32::MAX. -/
def satCast32 (q : ℚ) : Nat := min (Rat.floor q).toNat 4294967295

/-- delta_ns computation of FlowFeatures::insert_segment in
connection_features.rs: wrapping u32 subtraction of the start counter from
the current rte_rdtsc reading, scaled by the calibrated counter frequency
(hz, nonzero at runtime: a calibration failure is fatal at startup). -/
def deltaNsConn (hz curr start : Nat) : Nat :=
  satCast32 ((wsub32 curr start : ℚ) / (hz : ℚ) * 1000000000)

/-- Association-list view of the pkt_data HashMap. -/
def alookup (k : String) : List (String × List Nat) → Option (List Nat)
  | [] => none
  | (k2, v) :: rest => if k = k2 then some v else alookup k rest

/-- Append v to the vector stored under k (the push after a successful
get_mut). -/
def pushKeyGo (k : String) (v : Nat) :
    List (String × List Nat) → List (String × List Nat)
  | [] => []
  | (k2, l) :: rest =>
    if k = k2 then (k2, l ++ [v]) :: rest else (k2, l) :: pushKeyGo k v rest

/-- pkt_data.get_mut(k).unwrap().push(v): none models the unwrap panic when
the key is absent. -/
def pushKey (m : List (String × List Nat)) (k : String) (v : Nat) :
    Option (List (String × List Nat)) :=
  match alookup k m with
  | none => none
  | some _ => some (pushKeyGo k v m)

/-- A sequence of get_mut/unwrap/push calls; the first missing key panics. -/
def pushMany (m : List (String × List Nat)) :
    List (String × Nat) → Option (List (String × List Nat))
  | [] => some m
  | (k, v) :: rest =>
    match pushKey m k v with
    | none => none
    | some m2 => pushMany m2 rest

/-- PACKET_FT_CLASSES of connection_features.rs. -/
def PACKET_FT_CLASSES : List String :=
  ["packet_iat", "ip_ihl", "ip_dscp", "ip_ecn", "ip_total_length", "ip_id",
   "ip_flags_rf", "ip_flags_df", "ip_flags_mf", "ip_fragment_offset",
   "ip_ttl", "ip_protocol", "ip_header_checksum", "tcp_src_port",
   "tcp_dst_port", "tcp_seq_num", "tcp_ack_num", "tcp_data_offset",
   "tcp_reserved", "tcp_flags_cwr", "tcp_flags_ece", "tcp_flags_urg",
   "tcp_flags_ack", "tcp_flags_psh", "tcp_flags_rst", "tcp_flags_syn",
   "tcp_flags_fin", "tcp_window_size", "tcp_checksum", "tcp_urgent_ptr"]

/-- AGGREGATORS of connection_features.rs. -/
def AGGREGATORS : List String :=
  ["min", "q1", "med", "q3", "max", "mean", "std", "skew", "kurt", "sum",
   "dist", "first"]

/-- FlowFeatures of connection_features.rs: pkt_data maps every name of
PACKET_FT_CLASSES to an (initially empty) sample vector. -/
structure FlowFeatures where
  start_tsc : Nat
  packet_cnt : Nat
  byte_cnt : Nat
  pkt_data : List (String × List Nat)
deriving DecidableEq

/-- FlowFeatures::new, with t0 the rte_rdtsc reading truncated to u32. -/
def FlowFeatures.start (t0 : Nat) : FlowFeatures :=
  { start_tsc := wrap32 t0, packet_cnt := 0, byte_cnt := 0,
    pkt_data := PACKET_FT_CLASSES.map (fun k => (k, ([] : List Nat))) }

/-- The twelve per-IPv4-header pushes of insert_segment, in source order. -/
def ipPushes (ip : Ipv4Data) : List (String × Nat) :=
  [("ip_ihl", ip.ihl), ("ip_dscp", ip.dscp), ("ip_ecn", ip.ecn),
   ("ip_total_length", ip.total_length), ("ip_id", ip.identification),
   ("ip_flags_rf", b2n ip.rf), ("ip_flags_df", b2n ip.df),
   ("ip_flags_mf", b2n ip.mf), ("ip_fragment_offset", ip.fragment_offset),
   ("ip_ttl", ip.time_to_live), ("ip_protocol", ip.protocol),
   ("ip_header_checksum", ip.header_checksum)]

/-- The seventeen per-TCP-header pushes of insert_segment, in source order. -/
def tcpPushes (t : TcpData) : List (String × Nat) :=
  [("tcp_src_port", t.src_port), ("tcp_dst_port", t.dst_port),
   ("tcp_seq_num", t.seq_no), ("tcp_ack_num", t.ack_no),
   ("tcp_data_offset", t.data_offset), ("tcp_reserved", t.reserved),
   ("tcp_flags_cwr", b2n t.cwr), ("tcp_flags_ece", b2n t.ece),
   ("tcp_flags_urg", b2n t.urg), ("tcp_flags_ack", b2n t.ack),
   ("tcp_flags_psh", b2n t.psh), ("tcp_flags_rst", b2n t.rst),
   ("tcp_flags_syn", b2n t.syn), ("tcp_flags_fin", b2n t.fin),
   ("tcp_window_size", t.window), ("tcp_checksum", t.checksum),
   ("tcp_urgent_ptr", t.urgent_pointer)]

/-- FlowFeatures::insert_segment of connection_features.rs. A failed
Ethernet parse is a silent no-op; otherwise a delta_ns sample is pushed
first (through get_mut("delta_ns").unwrap()), then the IPv4 counters and
per-class pushes, then the TCP pushes when that layer parses. none models
a panic of one of the unwraps. -/
def insertSegment (hz : Nat) (s : FlowFeatures) (curr_tsc : Nat)
    (seg : L4Pdu) : Option FlowFeatures :=
  match seg.eth with
  | none => some s
  | some eth =>
    match pushKey s.pkt_data "delta_ns" (deltaNsConn hz curr_tsc s.start_tsc) with
    | none => none
    | some m1 =>
      match eth.ipv4 with
      | none => some { s with pkt_data := m1 }
      | some ip =>
        let s2 : FlowFeatures :=
          { s with pkt_data := m1,
                   packet_cnt := wrap32 (s.packet_cnt + 1),
                   byte_cnt := wrap32 (s.byte_cnt + ip.total_length) }
        match pushMany s2.pkt_data (ipPushes ip) with
        | none => none
        | some m2 =>
          match ip.tcp with
          | none => some { s2 with pkt_data := m2 }
          | some tcp =>
            match pushMany m2 (tcpPushes tcp) with
            | none => none
            | some m3 => some { s2 with pkt_data := m3 }

/-- Feed a list of (rdtsc reading, packet) pairs through insert_segment;
none as soon as one step panics. -/
def runInsert (hz : Nat) (s : FlowFeatures) :
    List (Nat × L4Pdu) → Option FlowFeatures
  | [] => some s
  | pr :: rest =>
    match insertSegment hz s pr.1 pr.2 with
    | none => none
    | some s2 => runInsert hz s2 rest

/-! ## conn_features.rs: the older FlowFeatures variant

delta_ns is a dedicated vector field and pkt_data is created as an empty
HashMap (hashmap macro with no entries). -/

structure CfFlowFeatures where
  start_tsc : Nat
  packet_cnt : Nat
  byte_cnt : Nat
  delta_ns : List Nat
  pkt_data : List (String × List Nat)
deriving DecidableEq

/-- conn_features.rs FlowFeatures::new: empty pkt_data map. -/
def CfFlowFeatures.start (t0 : Nat) : CfFlowFeatures :=
  { start_tsc := wrap32 t0, packet_cnt := 0, byte_cnt := 0,
    delta_ns := [], pkt_data := [] }

/-- conn_features.rs insert_segment: the delta sample (saturating u32
subtraction here) goes to the dedicated field, then the IPv4 and TCP pushes
unwrap pkt_data lookups exactly as in connection_features.rs. -/
def insertSegmentCf (hz : Nat) (s : CfFlowFeatures) (curr_tsc : Nat)
    (seg : L4Pdu) : Option CfFlowFeatures :=
  match seg.eth with
  | none => some s
  | some eth =>
    let delta := satCast32 (((wrap32 curr_tsc - s.start_tsc : Nat) : ℚ) / (hz : ℚ) * 1000000000)
    let s1 : CfFlowFeatures := { s with delta_ns := s.delta_ns ++ [delta] }
    match eth.ipv4 with
    | none => some s1
    | some ip =>
      let s2 : CfFlowFeatures :=
        { s1 with packet_cnt := wrap32 (s1.packet_cnt + 1),
                  byte_cnt := wrap32 (s1.byte_cnt + ip.total_length) }
      match pushMany s2.pkt_data (ipPushes ip) with
      | none => none
      | some m2 =>
        match ip.tcp with
        | none => some { s2 with pkt_data := m2 }
        | some tcp =>
          match pushMany m2 (tcpPushes tcp) with
          | none => none
          | some m3 => some { s2 with pkt_data := m3 }

/-! ## The aggregate catalogue of connection_features.rs

The source forwards each sample vector to the statrs Data type. The
reference semantics of the statrs calls, per the statrs documentation:
order statistics select the k-th smallest element, quartiles use the R-8
interpolation rule, mean is the arithmetic mean, std_dev and skewness are
bias-corrected sample statistics. Samples are u32 header values, so all
the rational-arithmetic aggregators are exact here. -/

/-- Insertion step for sorting natural samples. -/
def insortN (x : Nat) : List Nat → List Nat
  | [] => [x]
  | y :: ys => if x ≤ y then x :: y :: ys else y :: insortN x ys

/-- Sorted copy of the sample vector (order statistics backend). -/
def sortN (l : List Nat) : List Nat := l.foldr insortN []

/-- Arithmetic mean (statrs Data::mean of the f64 casts). -/
def meanQ (l : List Nat) : ℚ := (l.map (fun n => (n : ℚ))).sum / (l.length : ℚ)

/-- statrs Data::median: middle order statistic, or the mean of the two
central order statistics for even lengths. -/
def statMedianN (l : List Nat) : ℚ :=
  let s := sortN l
  let k := s.length / 2
  if s.length % 2 = 1 then ((s.getD k 0 : Nat) : ℚ)
  else (((s.getD (k - 1) 0 : Nat) : ℚ) + ((s.getD k 0 : Nat) : ℚ)) / 2

/-- statrs Data::quantile (used by lower_quartile, tau = 1/4, and
upper_quartile, tau = 3/4): R-8 rule, h = (n + 1/3) tau + 1/3, linear
interpolation between the two neighbouring order statistics, clamped to the
extremes. -/
def quantR8 (l : List Nat) (tau : ℚ) : ℚ :=
  let s := sortN l
  let n := s.length
  if n = 0 then 0
  else if n = 1 then ((s.headD 0 : Nat) : ℚ)
  else
    let h : ℚ := ((n : ℚ) + 1 / 3) * tau + 1 / 3
    let hf : ℤ := ⌊h⌋
    if hf ≤ 0 then ((s.headD 0 : Nat) : ℚ)
    else if (n : ℤ) ≤ hf then ((s.getLastD 0 : Nat) : ℚ)
    else
      let a : ℚ := ((s.getD (hf.toNat - 1) 0 : Nat) : ℚ)
      let b : ℚ := ((s.getD hf.toNat 0 : Nat) : ℚ)
      a + (h - (hf : ℚ)) * (b - a)

/-- Bias-corrected sample variance (denominator n - 1). -/
def sampleVarQ (l : List Nat) : ℚ :=
  ((l.map (fun n => ((n : ℚ) - meanQ l) ^ 2)).sum) / ((l.length : ℚ) - 1)

/-- statrs Data::std_dev with the unwrap_or(0.0) of the source: square root
of the sample variance; 0 below two samples, where no sample variance is
defined. -/
noncomputable def stdStat (l : List Nat) : ℝ :=
  if l.length < 2 then 0 else Real.sqrt ((sampleVarQ l : ℚ) : ℝ)

/-- statrs Data::skewness with the unwrap_or(0.0) of the source. Modelled
from the statrs documentation: bias-corrected sample skewness; the exact
correction is not exercised by any theorem below (only the empty-input
branch of aggregate is). -/
noncomputable def skewStat (l : List Nat) : ℝ :=
  if l.length < 3 then 0
  else
    let n : ℝ := (l.length : ℝ)
    (n / ((n - 1) * (n - 2))) *
      ((l.map (fun x => (((x : ℚ) - meanQ l : ℚ) : ℝ) ^ 3)).sum / (stdStat l) ^ 3)

/-- HashSet cardinality of the samples. -/
def distinctCount (l : List Nat) : Nat := l.dedup.length

/-- iter().sum::<u32>() with release-build wrap-around. -/
def sumWrap (l : List Nat) : Nat := wrap32 l.sum

/-- fn aggregate of connection_features.rs: empty input short-circuits to
the 0.0 sentinel for every aggregator; the kurt arm is the hard-coded
constant -1.2 of the source; unknown names fall through to 0.0. -/
noncomputable def aggregate (agg : String) (raw : List Nat) : ℝ :=
  if raw = [] then 0
  else
    match agg with
    | "min" => ((raw.foldl min (raw.headD 0) : Nat) : ℝ)
    | "q1" => ((quantR8 raw (1 / 4) : ℚ) : ℝ)
    | "med" => ((statMedianN raw : ℚ) : ℝ)
    | "q3" => ((quantR8 raw (3 / 4) : ℚ) : ℝ)
    | "max" => ((raw.foldl max (raw.headD 0) : Nat) : ℝ)
    | "mean" => ((meanQ raw : ℚ) : ℝ)
    | "std" => stdStat raw
    | "skew" => skewStat raw
    | "kurt" => (-1.2 : ℝ)
    | "sum" => ((sumWrap raw : Nat) : ℝ)
    | "dist" => ((distinctCount raw : Nat) : ℝ)
    | "first" => ((raw.headD 0 : Nat) : ℝ)
    | _ => 0

/-- Per-class loop body of FlowFeatures::get_features: the pkt_data lookup
unwrap (none on a missing key), the n_pkts slice (whose out-of-range end
panics), and the twelve aggregate values in catalogue order. -/
noncomputable def getFeaturesGo (s : FlowFeatures) (np : Option Nat) :
    List String → Option (List ℝ)
  | [] => some []
  | c :: cs =>
    match alookup c s.pkt_data with
    | none => none
    | some raw =>
      let n := np.getD raw.length
      if n ≤ raw.length then
        match getFeaturesGo s np cs with
        | none => none
        | some rest =>
          some ((AGGREGATORS.map (fun a => aggregate a (raw.take n))) ++ rest)
      else none

/-- FlowFeatures::get_features of connection_features.rs. -/
noncomputable def getFeatures (s : FlowFeatures) (np : Option Nat) :
    Option (List ℝ) :=
  getFeaturesGo s np PACKET_FT_CLASSES

/-! ## packet_features.rs: raw per-packet records and the flow lifecycle -/

/-- PacketFeature of packet_features.rs (every field a u32 value). -/
structure PacketFeature where
  dir : Nat
  delta_ns : Nat
  ip_ihl : Nat
  ip_dscp : Nat
  ip_ecn : Nat
  ip_total_length : Nat
  ip_id : Nat
  ip_flags_rf : Nat
  ip_flags_df : Nat
  ip_flags_mf : Nat
  ip_fragment_offset : Nat
  ip_ttl : Nat
  ip_protocol : Nat
  ip_header_checksum : Nat
  ip_src_addr : Nat
  ip_dst_addr : Nat
  tcp_src_port : Nat
  tcp_dst_port : Nat
  tcp_seq_num : Nat
  tcp_ack_num : Nat
  tcp_data_offset : Nat
  tcp_reserved : Nat
  tcp_flags_cwr : Nat
  tcp_flags_ece : Nat
  tcp_flags_urg : Nat
  tcp_flags_ack : Nat
  tcp_flags_psh : Nat
  tcp_flags_rst : Nat
  tcp_flags_syn : Nat
  tcp_flags_fin : Nat
  tcp_window_size : Nat
  tcp_checksum : Nat
  tcp_urgent_ptr : Nat
deriving DecidableEq

/-- Fallback record used only to read a getD off an option that is known to
be populated. -/
def pfDefault : PacketFeature :=
  { dir := 0, delta_ns := 0, ip_ihl := 0, ip_dscp := 0, ip_ecn := 0,
    ip_total_length := 0, ip_id := 0, ip_flags_rf := 0, ip_flags_df := 0,
    ip_flags_mf := 0, ip_fragment_offset := 0, ip_ttl := 0, ip_protocol := 0,
    ip_header_checksum := 0, ip_src_addr := 0, ip_dst_addr := 0,
    tcp_src_port := 0, tcp_dst_port := 0, tcp_seq_num := 0, tcp_ack_num := 0,
    tcp_data_offset := 0, tcp_reserved := 0, tcp_flags_cwr := 0,
    tcp_flags_ece := 0, tcp_flags_urg := 0, tcp_flags_ack := 0,
    tcp_flags_psh := 0, tcp_flags_rst := 0, tcp_flags_syn := 0,
    tcp_flags_fin := 0, tcp_window_size := 0, tcp_checksum := 0,
    tcp_urgent_ptr := 0 }

/-- PacketFeature::from: requires the eth, ipv4 and tcp layers (any parse
miss is an Err, dropping the packet from the record); delta_ns uses the
saturating u64 subtraction of the current rdtsc reading. -/
def pfFrom (seg : L4Pdu) (start_tsc curr_tsc hz : Nat) : Option PacketFeature :=
  match seg.eth with
  | none => none
  | some eth =>
    match eth.ipv4 with
    | none => none
    | some ip =>
      match ip.tcp with
      | none => none
      | some tcp =>
        some
          { dir := b2n seg.dir,
            delta_ns := satCast32 (((curr_tsc - start_tsc : Nat) : ℚ) / (hz : ℚ) * 1000000000),
            ip_ihl := ip.ihl, ip_dscp := ip.dscp, ip_ecn := ip.ecn,
            ip_total_length := ip.total_length, ip_id := ip.identification,
            ip_flags_rf := b2n ip.rf, ip_flags_df := b2n ip.df,
            ip_flags_mf := b2n ip.mf,
            ip_fragment_offset := ip.fragment_offset,
            ip_ttl := ip.time_to_live, ip_protocol := ip.protocol,
            ip_header_checksum := ip.header_checksum,
            ip_src_addr := ip.src_addr, ip_dst_addr := ip.dst_addr,
            tcp_src_port := tcp.src_port, tcp_dst_port := tcp.dst_port,
            tcp_seq_num := tcp.seq_no, tcp_ack_num := tcp.ack_no,
            tcp_data_offset := tcp.data_offset, tcp_reserved := tcp.reserved,
            tcp_flags_cwr := b2n tcp.cwr, tcp_flags_ece := b2n tcp.ece,
            tcp_flags_urg := b2n tcp.urg, tcp_flags_ack := b2n tcp.ack,
            tcp_flags_psh := b2n tcp.psh, tcp_flags_rst := b2n tcp.rst,
            tcp_flags_syn := b2n tcp.syn, tcp_flags_fin := b2n tcp.fin,
            tcp_window_size := tcp.window, tcp_checksum := tcp.checksum,
            tcp_urgent_ptr := tcp.urgent_pointer }

/-- TrackedPacketFeatures. -/
structure TrackedPF where
  start_tsc : Nat
  sni : String
  packets : List PacketFeature
deriving DecidableEq

/-- TrackedPacketFeatures::new (start_tsc from rte_rdtsc). -/
def TrackedPF.start (t0 : Nat) : TrackedPF :=
  { start_tsc := t0, sni := "", packets := [] }

/-- TrackedPacketFeatures::update: push the feature row when every layer
parses, silently skip the packet otherwise. -/
def updatePF (hz : Nat) (s : TrackedPF) (curr_tsc : Nat) (seg : L4Pdu) :
    TrackedPF :=
  match pfFrom seg s.start_tsc curr_tsc hz with
  | some p => { s with packets := s.packets ++ [p] }
  | none => s

/-- TrackedPacketFeatures::early_terminate: packets.len() at or above 2048. -/
def earlyTermPF (s : TrackedPF) : Bool := decide (2048 ≤ s.packets.length)

/-- TrackedPacketFeatures::on_match (same shape as the other variants). -/
def onMatchPF (s : TrackedPF) (sess : SessionKind) : TrackedPF :=
  match sess with
  | .tls n => { s with sni := n }
  | .other => s

/-- The PacketFeatures record delivered to the sink. -/
structure PFRecord where
  sni : String
  packets : List PacketFeature
deriving DecidableEq

/-- TrackedPacketFeatures::on_terminate builds this record and passes it to
subscription.invoke, once per call. -/
def onTermRecordPF (s : TrackedPF) : PFRecord := { sni := s.sni, packets := s.packets }

/-- One event seen by a flow: a packet (with its rdtsc reading), a session
match, or the external closure signal of the demultiplexer. -/
inductive PFEvent where
  | pkt (curr : Nat) (seg : L4Pdu)
  | sess (sk : SessionKind)
  | close
deriving DecidableEq

/-- The lifecycle wrapper around one tracked flow: the Terminated flag and
the list of records handed to SubscriptionSink.invoke. -/
structure PFLifecycle where
  tracked : TrackedPF
  terminated : Bool
  emitted : List PFRecord
deriving DecidableEq

/-- A freshly created flow (first packet of a new FlowKey). -/
def PFLifecycle.create (t0 : Nat) : PFLifecycle :=
  { tracked := TrackedPF.start t0, terminated := false, emitted := [] }

/-- Modelled from the spec: terminate(reason) is valid from any state,
transitions to Terminated and invokes the sink exactly once, and an
already-terminated flow must not be terminated a second time (idempotency
guard); the invoked record is the one on_terminate builds in the source.
The conntracker owning this logic is outside the provided sources. -/
def terminatePF (lc : PFLifecycle) : PFLifecycle :=
  if lc.terminated then lc
  else { lc with terminated := true,
                 emitted := lc.emitted ++ [onTermRecordPF lc.tracked] }

/-- Modelled from the spec: the demultiplexer routes packets of a FlowKey to
its live tracked instance (never to a terminated one), evaluates the pure
early-termination predicate after every accumulation step and finalizes
immediately when it fires, and forwards the external closure signal to
terminate. -/
def stepPF (hz : Nat) (lc : PFLifecycle) (ev : PFEvent) : PFLifecycle :=
  match ev with
  | .pkt curr seg =>
    if lc.terminated then lc
    else
      let t := updatePF hz lc.tracked curr seg
      let lc2 := { lc with tracked := t }
      if earlyTermPF t then terminatePF lc2 else lc2
  | .sess sk =>
    if lc.terminated then lc
    else { lc with tracked := onMatchPF lc.tracked sk }
  | .close => terminatePF lc

/-- Run a flow through its event sequence. -/
def runPF (hz : Nat) (lc : PFLifecycle) (evs : List PFEvent) : PFLifecycle :=
  evs.foldl (stepPF hz) lc

/-! ## Clock-independent projection of TrackedFeatures

Every field of TrackedFeatures except the five stored clock readings,
together with the set/unset shape of those readings (the only thing the
control flow of update inspects about them). -/

structure StaticPart where
  sni : String
  cnt : Nat
  synSet : Bool
  synAckSet : Bool
  ackSet : Bool
  sLastSet : Bool
  dLastSet : Bool
  s_pkt_cnt : ℚ
  d_pkt_cnt : ℚ
  s_bytes_sum : ℚ
  d_bytes_sum : ℚ
  s_ttl_sum : ℚ
  d_ttl_sum : ℚ
  proto : Option ℚ
  s_bytes_min : Option ℚ
  d_bytes_min : Option ℚ
  s_bytes_max : Option ℚ
  d_bytes_max : Option ℚ
  s_bytes_hist : List ℚ
  d_bytes_hist : List ℚ
  s_mac : Nat
  d_mac : Nat
deriving DecidableEq

/-- Forget the stored clock values, keep everything else. -/
def projTF (s : TrackedFeatures) : StaticPart :=
  { sni := s.sni, cnt := s.cnt, synSet := s.syn_ts.isSome,
    synAckSet := s.syn_ack_ts.isSome, ackSet := s.ack_ts.isSome,
    sLastSet := s.s_last_ts.isSome, dLastSet := s.d_last_ts.isSome,
    s_pkt_cnt := s.s_pkt_cnt, d_pkt_cnt := s.d_pkt_cnt,
    s_bytes_sum := s.s_bytes_sum, d_bytes_sum := s.d_bytes_sum,
    s_ttl_sum := s.s_ttl_sum, d_ttl_sum := s.d_ttl_sum, proto := s.proto,
    s_bytes_min := s.s_bytes_min, d_bytes_min := s.d_bytes_min,
    s_bytes_max := s.s_bytes_max, d_bytes_max := s.d_bytes_max,
    s_bytes_hist := s.s_bytes_hist, d_bytes_hist := s.d_bytes_hist,
    s_mac := s.s_mac, d_mac := s.d_mac }

/-- The originator branch of update, on the clock-free projection. -/
def staticOrig (t : StaticPart) (eth : EthData) (ip : Ipv4Data) : StaticPart :=
  let t := if t.cnt = 1 then { t with s_mac := eth.src, d_mac := eth.dst } else t
  let t := if t.synSet = false then { t with synSet := true } else t
  let t := { t with
    sLastSet := true,
    s_pkt_cnt := t.s_pkt_cnt + 1,
    s_bytes_sum := t.s_bytes_sum + (ip.total_length : ℚ),
    s_bytes_min := fMin t.s_bytes_min (ip.total_length : ℚ),
    s_bytes_max := fMax t.s_bytes_max (ip.total_length : ℚ),
    s_bytes_hist := t.s_bytes_hist ++ [(ip.total_length : ℚ)],
    s_ttl_sum := t.s_ttl_sum + (ip.time_to_live : ℚ) }
  if t.synAckSet = true ∧ t.ackSet = false then
    match ip.tcp with
    | none => t
    | some tcp =>
      let t := if tcp.ack then { t with ackSet := true } else t
      { t with proto := some (ip.protocol : ℚ) }
  else { t with proto := some (ip.protocol : ℚ) }

/-- The responder branch of update, on the clock-free projection. -/
def staticResp (t : StaticPart) (ip : Ipv4Data) : StaticPart :=
  let t := { t with
    dLastSet := true,
    d_pkt_cnt := t.d_pkt_cnt + 1,
    d_bytes_sum := t.d_bytes_sum + (ip.total_length : ℚ),
    d_bytes_min := fMin t.d_bytes_min (ip.total_length : ℚ),
    d_bytes_max := fMax t.d_bytes_max (ip.total_length : ℚ),
    d_bytes_hist := t.d_bytes_hist ++ [(ip.total_length : ℚ)],
    d_ttl_sum := t.d_ttl_sum + (ip.time_to_live : ℚ) }
  if t.synAckSet = false then
    match ip.tcp with
    | none => t
    | some tcp => if tcp.synack then { t with synAckSet := true } else t
  else t

/-- update on the clock-free projection: a pure function of the packet. -/
def staticStep (t : StaticPart) (seg : L4Pdu) : StaticPart :=
  let t := { t with cnt := t.cnt + 1 }
  match seg.eth with
  | none => t
  | some eth =>
    match eth.ipv4 with
    | none => t
    | some ip =>
      if seg.dir then staticOrig t eth ip else staticResp t ip

/-- Fold of the clock-free step over a bare packet list. -/
def staticRun (t : StaticPart) (l : List L4Pdu) : StaticPart :=
  l.foldl staticStep t

/-! ## Concrete packets used by the scenario theorems and witnesses -/

/-- Plain SYN flags. -/
def tcpSyn : TcpData :=
  { src_port := 40000, dst_port := 443, seq_no := 100, ack_no := 0,
    data_offset := 5, reserved := 0, window := 64, checksum := 1,
    urgent_pointer := 0, cwr := false, ece := false, urg := false,
    ack := false, psh := false, rst := false, syn := true, fin := false }

/-- SYN+ACK flags. -/
def tcpSynAck : TcpData :=
  { tcpSyn with src_port := 443, dst_port := 40000, ack_no := 101, ack := true }

/-- Plain ACK flags. -/
def tcpAck : TcpData :=
  { tcpSyn with syn := false, ack := true }

/-- An IPv4 header around an optional TCP layer. -/
def ip4 (t : Option TcpData) : Ipv4Data :=
  { ihl := 5, dscp := 0, ecn := 0, total_length := 40, identification := 7,
    fragment_offset := 0, time_to_live := 64, protocol := 6,
    header_checksum := 9, src_addr := 1, dst_addr := 2, rf := false,
    df := true, mf := false, tcp := t }

/-- Originator SYN. -/
def pktSyn : L4Pdu := ⟨true, 0, some ⟨11, 22, some (ip4 (some tcpSyn))⟩⟩

/-- Responder SYN+ACK. -/
def pktSynAck : L4Pdu := ⟨false, 10, some ⟨22, 11, some (ip4 (some tcpSynAck))⟩⟩

/-- Originator ACK completing the handshake. -/
def pktAck : L4Pdu := ⟨true, 15, some ⟨11, 22, some (ip4 (some tcpAck))⟩⟩

/-- Originator data segment (ACK flag set, as on an established connection). -/
def pktData : L4Pdu := ⟨true, 16, some ⟨11, 22, some (ip4 (some tcpAck))⟩⟩

/-- A frame the Ethernet parser rejects. -/
def pktBad : L4Pdu := ⟨true, 0, none⟩

/-! ## Closed forms of the update branches (proof machinery) -/

/-- Field-wise closed form of updOrig. -/
theorem updOrig_eq (s : TrackedFeatures) (c : ℚ) (eth : EthData)
    (ip : Ipv4Data) :
    updOrig s c eth ip =
      { sni := s.sni,
        cnt := s.cnt,
        syn_ts := if s.syn_ts = none then some c else s.syn_ts,
        syn_ack_ts := s.syn_ack_ts,
        ack_ts :=
          if s.syn_ack_ts ≠ none ∧ s.ack_ts = none then
            (match ip.tcp with
             | none => s.ack_ts
             | some tcp => if tcp.ack then some c else s.ack_ts)
          else s.ack_ts,
        s_last_ts := some c,
        d_last_ts := s.d_last_ts,
        s_pkt_cnt := s.s_pkt_cnt + 1,
        d_pkt_cnt := s.d_pkt_cnt,
        s_bytes_sum := s.s_bytes_sum + (ip.total_length : ℚ),
        d_bytes_sum := s.d_bytes_sum,
        s_ttl_sum := s.s_ttl_sum + (ip.time_to_live : ℚ),
        d_ttl_sum := s.d_ttl_sum,
        proto :=
          if s.syn_ack_ts ≠ none ∧ s.ack_ts = none then
            (match ip.tcp with
             | none => s.proto
             | some _ => some (ip.protocol : ℚ))
          else some (ip.protocol : ℚ),
        s_bytes_min := fMin s.s_bytes_min (ip.total_length : ℚ),
        d_bytes_min := s.d_bytes_min,
        s_bytes_max := fMax s.s_bytes_max (ip.total_length : ℚ),
        d_bytes_max := s.d_bytes_max,
        s_bytes_hist := s.s_bytes_hist ++ [(ip.total_length : ℚ)],
        d_bytes_hist := s.d_bytes_hist,
        s_mac := if s.cnt = 1 then eth.src else s.s_mac,
        d_mac := if s.cnt = 1 then eth.dst else s.d_mac } := by
  rcases htcp : ip.tcp with _ | tcp
  · by_cases h1 : s.cnt = 1 <;> by_cases h2 : s.syn_ts = none <;>
      by_cases h4 : s.syn_ack_ts ≠ none ∧ s.ack_ts = none <;>
      simp [updOrig, h1, h2, h4, htcp]
  · rcases hb : tcp.ack with _ | _ <;>
      by_cases h1 : s.cnt = 1 <;> by_cases h2 : s.syn_ts = none <;>
      by_cases h4 : s.syn_ack_ts ≠ none ∧ s.ack_ts = none <;>
      simp [updOrig, h1, h2, h4, htcp, hb]

/-- Field-wise closed form of updResp. -/
theorem updResp_eq (s : TrackedFeatures) (c : ℚ) (ip : Ipv4Data) :
    updResp s c ip =
      { sni := s.sni,
        cnt := s.cnt,
        syn_ts := s.syn_ts,
        syn_ack_ts :=
          if s.syn_ack_ts = none then
            (match ip.tcp with
             | none => s.syn_ack_ts
             | some tcp => if tcp.synack then some c else s.syn_ack_ts)
          else s.syn_ack_ts,
        ack_ts := s.ack_ts,
        s_last_ts := s.s_last_ts,
        d_last_ts := some c,
        s_pkt_cnt := s.s_pkt_cnt,
        d_pkt_cnt := s.d_pkt_cnt + 1,
        s_bytes_sum := s.s_bytes_sum,
        d_bytes_sum := s.d_bytes_sum + (ip.total_length : ℚ),
        s_ttl_sum := s.s_ttl_sum,
        d_ttl_sum := s.d_ttl_sum + (ip.time_to_live : ℚ),
        proto := s.proto,
        s_bytes_min := s.s_bytes_min,
        d_bytes_min := fMin s.d_bytes_min (ip.total_length : ℚ),
        s_bytes_max := s.s_bytes_max,
        d_bytes_max := fMax s.d_bytes_max (ip.total_length : ℚ),
        s_bytes_hist := s.s_bytes_hist,
        d_bytes_hist := s.d_bytes_hist ++ [(ip.total_length : ℚ)],
        s_mac := s.s_mac,
        d_mac := s.d_mac } := by
  rcases htcp : ip.tcp with _ | tcp
  · by_cases h4 : s.syn_ack_ts = none <;> simp [updResp, h4, htcp]
  · rcases hb : tcp.synack with _ | _ <;>
      by_cases h4 : s.syn_ack_ts = none <;> simp [updResp, h4, htcp, hb]

/-! ## Theorems -/


/-- C6: with originator SYN at 0, responder SYN+ACK at 10, originator ACK at
15 and originator data at 16, the first originator packet fixes syn, the
first responder SYN+ACK packet fixes syn_ack, the first following
originator ACK (with syn_ack set and ack unset) fixes ack, and the record
fields are syn_ack = 10, ack_dat = 5, tcp_rtt = 15. -/
theorem c6_handshake_scenario :
    (runTF TrackedFeatures.init
        [(0, pktSyn), (10, pktSynAck), (15, pktAck), (16, pktData)]).syn_ts
        = some 0 ∧
    (runTF TrackedFeatures.init
        [(0, pktSyn), (10, pktSynAck), (15, pktAck), (16, pktData)]).syn_ack_ts
        = some 10 ∧
    (runTF TrackedFeatures.init
        [(0, pktSyn), (10, pktSynAck), (15, pktAck), (16, pktData)]).ack_ts
        = some 15 ∧
    (extractTF (runTF TrackedFeatures.init
        [(0, pktSyn), (10, pktSynAck), (15, pktAck), (16, pktData)])).syn_ack
        = some 10 ∧
    (extractTF (runTF TrackedFeatures.init
        [(0, pktSyn), (10, pktSynAck), (15, pktAck), (16, pktData)])).ack_dat
        = some 5 ∧
    (extractTF (runTF TrackedFeatures.init
        [(0, pktSyn), (10, pktSynAck), (15, pktAck), (16, pktData)])).tcp_rtt
        = some 15 := by
  have h1 : updateTF TrackedFeatures.init 0 pktSyn =
      { sni := "", cnt := 1, syn_ts := some 0, syn_ack_ts := none,
        ack_ts := none, s_last_ts := some 0, d_last_ts := none,
        s_pkt_cnt := 1, d_pkt_cnt := 0, s_bytes_sum := 40, d_bytes_sum := 0,
        s_ttl_sum := 64, d_ttl_sum := 0, proto := some 6,
        s_bytes_min := some 40, d_bytes_min := none, s_bytes_max := some 40,
        d_bytes_max := none, s_bytes_hist := [40], d_bytes_hist := [],
        s_mac := 11, d_mac := 22 } := by
    simp only [updateTF, pktSyn, TrackedFeatures.init]
    rw [updOrig_eq]
    norm_num [ip4, tcpSyn, fMin, fMax]
  have h2 : updateTF (updateTF TrackedFeatures.init 0 pktSyn) 10 pktSynAck =
      { sni := "", cnt := 2, syn_ts := some 0, syn_ack_ts := some 10,
        ack_ts := none, s_last_ts := some 0, d_last_ts := some 10,
        s_pkt_cnt := 1, d_pkt_cnt := 1, s_bytes_sum := 40, d_bytes_sum := 40,
        s_ttl_sum := 64, d_ttl_sum := 64, proto := some 6,
        s_bytes_min := some 40, d_bytes_min := some 40,
        s_bytes_max := some 40, d_bytes_max := some 40,
        s_bytes_hist := [40], d_bytes_hist := [40], s_mac := 11,
        d_mac := 22 } := by
    rw [h1]
    simp only [updateTF, pktSynAck]
    rw [updResp_eq]
    norm_num [ip4, tcpSynAck, tcpSyn, TcpData.synack, fMin, fMax]
  have h3 : updateTF (updateTF (updateTF TrackedFeatures.init 0 pktSyn) 10
      pktSynAck) 15 pktAck =
      { sni := "", cnt := 3, syn_ts := some 0, syn_ack_ts := some 10,
        ack_ts := some 15, s_last_ts := some 15, d_last_ts := some 10,
        s_pkt_cnt := 2, d_pkt_cnt := 1, s_bytes_sum := 80, d_bytes_sum := 40,
        s_ttl_sum := 128, d_ttl_sum := 64, proto := some 6,
        s_bytes_min := some 40, d_bytes_min := some 40,
        s_bytes_max := some 40, d_bytes_max := some 40,
        s_bytes_hist := [40, 40], d_bytes_hist := [40], s_mac := 11,
        d_mac := 22 } := by
    rw [h2]
    simp only [updateTF, pktAck]
    rw [updOrig_eq]
    norm_num [ip4, tcpAck, tcpSyn, fMin, fMax]
    decide
  have h4 : runTF TrackedFeatures.init
      [(0, pktSyn), (10, pktSynAck), (15, pktAck), (16, pktData)] =
      { sni := "", cnt := 4, syn_ts := some 0, syn_ack_ts := some 10,
        ack_ts := some 15, s_last_ts := some 16, d_last_ts := some 10,
        s_pkt_cnt := 3, d_pkt_cnt := 1, s_bytes_sum := 120,
        d_bytes_sum := 40, s_ttl_sum := 192, d_ttl_sum := 64,
        proto := some 6, s_bytes_min := some 40, d_bytes_min := some 40,
        s_bytes_max := some 40, d_bytes_max := some 40,
        s_bytes_hist := [40, 40, 40], d_bytes_hist := [40], s_mac := 11,
        d_mac := 22 } := by
    show updateTF (updateTF (updateTF (updateTF TrackedFeatures.init 0
      pktSyn) 10 pktSynAck) 15 pktAck) 16 pktData = _
    rw [h3]
    simp only [updateTF, pktData]
    rw [updOrig_eq]
    norm_num [ip4, tcpAck, tcpSyn, fMin, fMax]
    decide
  rw [h4]
  norm_num [extractTF, oSub, oAdd, oFMax]

/-- Shared evaluation of the two-packet run SYN then SYN+ACK under arbitrary
clock readings; the control flow never inspects a clock value, so the shape
is uniform in c1 and c2. -/
theorem twoPktState (c1 c2 : ℚ) :
    runTF TrackedFeatures.init [(c1, pktSyn), (c2, pktSynAck)] =
      { sni := "", cnt := 2, syn_ts := some c1, syn_ack_ts := some c2,
        ack_ts := none, s_last_ts := some c1, d_last_ts := some c2,
        s_pkt_cnt := 1, d_pkt_cnt := 1, s_bytes_sum := 40, d_bytes_sum := 40,
        s_ttl_sum := 64, d_ttl_sum := 64, proto := some 6,
        s_bytes_min := some 40, d_bytes_min := some 40,
        s_bytes_max := some 40, d_bytes_max := some 40,
        s_bytes_hist := [40], d_bytes_hist := [40], s_mac := 11,
        d_mac := 22 } := by
  show updateTF (updateTF TrackedFeatures.init c1 pktSyn) c2 pktSynAck = _
  have h1 : updateTF TrackedFeatures.init c1 pktSyn =
      { sni := "", cnt := 1, syn_ts := some c1, syn_ack_ts := none,
        ack_ts := none, s_last_ts := some c1, d_last_ts := none,
        s_pkt_cnt := 1, d_pkt_cnt := 0, s_bytes_sum := 40, d_bytes_sum := 0,
        s_ttl_sum := 64, d_ttl_sum := 0, proto := some 6,
        s_bytes_min := some 40, d_bytes_min := none, s_bytes_max := some 40,
        d_bytes_max := none, s_bytes_hist := [40], d_bytes_hist := [],
        s_mac := 11, d_mac := 22 } := by
    simp only [updateTF, pktSyn, TrackedFeatures.init]
    rw [updOrig_eq]
    norm_num [ip4, tcpSyn, fMin, fMax]
  rw [h1]
  simp only [updateTF, pktSynAck]
  rw [updResp_eq]
  norm_num [ip4, tcpSynAck, tcpSyn, TcpData.synack, fMin, fMax]

/-- C3 counterexample: the same two-packet sequence, fed twice through a
freshly initialized accumulator, with the rte_rdtsc clock reading 10 at the
second packet on the first run and 20 on the second run, yields different
Features records (the syn_ack field follows the clock). -/
theorem c3_determinism_counterexample :
    List.map Prod.snd [((0 : ℚ), pktSyn), (10, pktSynAck)] =
      List.map Prod.snd [((0 : ℚ), pktSyn), (20, pktSynAck)] ∧
    extractTF (runTF TrackedFeatures.init [(0, pktSyn), (10, pktSynAck)]) ≠
      extractTF (runTF TrackedFeatures.init [(0, pktSyn), (20, pktSynAck)]) := by
  constructor
  · rfl
  · have e10 : (extractTF (runTF TrackedFeatures.init
        [(0, pktSyn), (10, pktSynAck)])).syn_ack = some 10 := by
      rw [twoPktState]
      norm_num [extractTF, oSub]
    have e20 : (extractTF (runTF TrackedFeatures.init
        [(0, pktSyn), (20, pktSynAck)])).syn_ack = some 20 := by
      rw [twoPktState]
      norm_num [extractTF, oSub]
    intro h
    rw [h, e20] at e10
    have : (20 : ℚ) = 10 := by injection e10
    norm_num at this

/-- Bridge lemma: the responder update commutes with the clock-free
projection. -/
theorem projTF_updResp (s : TrackedFeatures) (c : ℚ) (ip : Ipv4Data) :
    projTF (updResp s c ip) = staticResp (projTF s) ip := by
  rw [updResp_eq]
  rcases htcp : ip.tcp with _ | tcp
  · rcases hsa : s.syn_ack_ts with _ | v <;>
      simp [staticResp, projTF, htcp, hsa]
  · rcases hb : tcp.synack with _ | _ <;>
      rcases hsa : s.syn_ack_ts with _ | v <;>
      simp [staticResp, projTF, htcp, hsa, hb]

/-- Bridge lemma: the originator update commutes with the clock-free
projection. -/
theorem projTF_updOrig (s : TrackedFeatures) (c : ℚ) (eth : EthData)
    (ip : Ipv4Data) :
    projTF (updOrig s c eth ip) = staticOrig (projTF s) eth ip := by
  rw [updOrig_eq]
  rcases htcp : ip.tcp with _ | tcp
  · by_cases h1 : s.cnt = 1 <;>
      rcases hst : s.syn_ts with _ | v0 <;>
      rcases hsa : s.syn_ack_ts with _ | v1 <;>
      rcases hat : s.ack_ts with _ | v2 <;>
      simp [staticOrig, projTF, htcp, hst, hsa, hat, h1]
  · rcases hb : tcp.ack with _ | _ <;>
      by_cases h1 : s.cnt = 1 <;>
      rcases hst : s.syn_ts with _ | v0 <;>
      rcases hsa : s.syn_ack_ts with _ | v1 <;>
      rcases hat : s.ack_ts with _ | v2 <;>
      simp [staticOrig, projTF, htcp, hst, hsa, hat, h1, hb]

/-- Bridge lemma: one update step commutes with the clock-free projection. -/
theorem projTF_step (s : TrackedFeatures) (c : ℚ) (g : L4Pdu) :
    projTF (updateTF s c g) = staticStep (projTF s) g := by
  rcases g with ⟨dir, ts, eth⟩
  rcases eth with _ | ⟨esrc, edst, ipv4⟩
  · rfl
  rcases ipv4 with _ | ip
  · rfl
  cases dir
  · show projTF (updResp { s with cnt := s.cnt + 1 } c ip) =
      staticResp { projTF s with cnt := s.cnt + 1 } ip
    rw [projTF_updResp]
    rfl
  · show projTF (updOrig { s with cnt := s.cnt + 1 } c ⟨esrc, edst, some ip⟩ ip) =
      staticOrig { projTF s with cnt := s.cnt + 1 } ⟨esrc, edst, some ip⟩ ip
    rw [projTF_updOrig]
    rfl

/-- Bridge lemma: a whole run commutes with the clock-free projection. -/
theorem projTF_run (l : List (ℚ × L4Pdu)) (s : TrackedFeatures) :
    projTF (runTF s l) = staticRun (projTF s) (l.map Prod.snd) := by
  induction l generalizing s with
  | nil => rfl
  | cons pr rest ih =>
    show projTF (runTF (updateTF s pr.1 pr.2) rest) =
      staticRun (staticStep (projTF s) pr.2) (rest.map Prod.snd)
    rw [ih, projTF_step]

/-- C3 amended: every field of the record except the stored clock readings
is a deterministic pure function of the observed packet sequence: two runs
from fresh accumulators over the same packets, under arbitrary (and
different) per-packet clock readings, agree on the whole clock-free
projection. The clock-derived fields themselves follow the processing-time
readings (see the counterexample). -/
theorem c3_static_determinism (l1 l2 : List (ℚ × L4Pdu))
    (h : l1.map Prod.snd = l2.map Prod.snd) :
    projTF (runTF TrackedFeatures.init l1) =
      projTF (runTF TrackedFeatures.init l2) := by
  rw [projTF_run, projTF_run, h]

/-- Witness for c3_static_determinism at the concrete two-run input of the
counterexample. -/
theorem c3_static_determinism_witness :
    projTF (runTF TrackedFeatures.init [((0 : ℚ), pktSyn), (10, pktSynAck)]) =
      projTF (runTF TrackedFeatures.init [((0 : ℚ), pktSyn), (20, pktSynAck)]) :=
  c3_static_determinism _ _ rfl

/-- C2 counterexample: two distinct TLS Session events delivered to one
flow; the final record carries the second identity, not the first. -/
theorem c2_first_match_counterexample :
    (extractTF (onMatchTF (onMatchTF TrackedFeatures.init
        (SessionKind.tls "a")) (SessionKind.tls "b"))).sni = "b" ∧
    ("b" : String) ≠ "a" := by
  constructor
  · rfl
  · decide

/-- C2 amended: session identity is last-match-wins: a second TLS session
event overwrites the stored server name unconditionally, while a non-TLS
session event is ignored. -/
theorem c2_last_match_wins (s : TrackedFeatures) (a b : String) :
    (onMatchTF (onMatchTF s (SessionKind.tls a)) (SessionKind.tls b)).sni = b ∧
    onMatchTF s SessionKind.other = s := ⟨rfl, rfl⟩

/-- C8 counterexample: a packet the Ethernet parser rejects does not leave
the accumulated state unchanged: the total packet counter cnt is
incremented before any parsing. -/
theorem c8_unchanged_counterexample :
    updateTF TrackedFeatures.init 0 pktBad ≠ TrackedFeatures.init ∧
    (updateTF TrackedFeatures.init 0 pktBad).cnt = 1 ∧
    TrackedFeatures.init.cnt = 0 := by
  refine ⟨fun h => ?_, rfl, rfl⟩
  have hc := congrArg TrackedFeatures.cnt h
  simp [updateTF, pktBad, TrackedFeatures.init] at hc

/-- C8 amended: a malformed packet (Ethernet parse miss) produces no sample
and never panics, and the only state change is the unconditional increment
of the total packet counter cnt in TrackedFeatures::update; in
connection_features.rs insert_segment it is a complete no-op. Processing is
a total function, so subsequent packets accumulate as from the resulting
state. -/
theorem c8_malformed_packet (s : TrackedFeatures) (c : ℚ) (p : L4Pdu)
    (fl : FlowFeatures) (hz tsc : Nat) (h : p.eth = none) :
    updateTF s c p = { s with cnt := s.cnt + 1 } ∧
    insertSegment hz fl tsc p = some fl := by
  constructor
  · simp [updateTF, h]
  · simp [insertSegment, h]

/-- Witness for c8_malformed_packet on a concrete malformed frame. -/
theorem c8_malformed_packet_witness :
    updateTF TrackedFeatures.init 0 pktBad =
      { TrackedFeatures.init with cnt := TrackedFeatures.init.cnt + 1 } ∧
    insertSegment 1 (FlowFeatures.start 0) 5 pktBad =
      some (FlowFeatures.start 0) :=
  c8_malformed_packet TrackedFeatures.init 0 pktBad (FlowFeatures.start 0) 1 5 rfl

/-- C10: the pkt_data keys that insert_segment unwraps are not all present.
In connection_features.rs the map built by new() is keyed by
PACKET_FT_CLASSES, which contains "packet_iat" but not the "delta_ns" key
the first push unwraps, so inserting any Ethernet-parseable packet panics;
in conn_features.rs the map is created empty, so the "ip_ihl" unwrap panics
on any IPv4 packet. -/
theorem c10_missing_key_panics :
    alookup "delta_ns" (FlowFeatures.start 0).pkt_data = none ∧
    insertSegment 1 (FlowFeatures.start 0) 7 pktSyn = none ∧
    alookup "ip_ihl" (CfFlowFeatures.start 0).pkt_data = none ∧
    insertSegmentCf 1 (CfFlowFeatures.start 0) 7 pktSyn = none := by
  refine ⟨by decide, ?_, by decide, ?_⟩
  · simp [insertSegment, pktSyn, pushKey, show alookup "delta_ns"
      (FlowFeatures.start 0).pkt_data = none by decide]
  · simp [insertSegmentCf, pktSyn, ip4, pushMany, ipPushes, pushKey,
      CfFlowFeatures.start, alookup]

/-- A successful insert_segment step from a state whose map lacks the
"delta_ns" key is the identity: the only non-panicking path is the silent
no-op on an Ethernet parse miss. -/
theorem insertSegment_no_delta (hz : Nat) (s : FlowFeatures) (tsc : Nat)
    (p : L4Pdu) (hk : alookup "delta_ns" s.pkt_data = none)
    (s2 : FlowFeatures) (h : insertSegment hz s tsc p = some s2) : s2 = s := by
  rcases hp : p.eth with _ | e
  · simp [insertSegment, hp] at h
    exact h.symm
  · simp [insertSegment, hp, pushKey, hk] at h

/-- A successful run from a state whose map lacks the "delta_ns" key leaves
the state untouched. -/
theorem runInsert_fix (hz : Nat) (l : List (Nat × L4Pdu)) (s : FlowFeatures)
    (hk : alookup "delta_ns" s.pkt_data = none) (s2 : FlowFeatures)
    (h : runInsert hz s l = some s2) : s2 = s := by
  induction l with
  | nil =>
    simp [runInsert] at h
    exact h.symm
  | cons pr rest ih =>
    rcases hstep : insertSegment hz s pr.1 pr.2 with _ | s3
    · simp [runInsert, hstep] at h
    · have hs3 : s3 = s := insertSegment_no_delta hz s pr.1 pr.2 hk s3 hstep
      rw [runInsert, hstep, hs3] at h
      exact ih h

/-- Every sample list in the initial map is empty. -/
theorem alookup_map_nil (ks : List String) (c : String) (ls : List Nat)
    (h : alookup c (ks.map fun k => (k, ([] : List Nat))) = some ls) :
    ls = [] := by
  induction ks with
  | nil => simp [alookup] at h
  | cons k rest ih =>
    by_cases hc : c = k
    · simp [alookup, hc] at h
      exact h
    · rw [List.map_cons, alookup, if_neg hc] at h
      exact ih h

/-- C9: over every panic-free reachable FlowFeatures state, packet_cnt
equals the length of every per-class sample sequence stored in pkt_data.
(These states are degenerate: every packet whose Ethernet layer parses
panics at the absent "delta_ns" key, see C10, so the reachable states carry
no samples at all and both sides are zero.) -/
theorem c9_sample_count_invariant (hz t0 : Nat) (l : List (Nat × L4Pdu))
    (s : FlowFeatures) (h : runInsert hz (FlowFeatures.start t0) l = some s)
    (k : String) (ls : List Nat) (h2 : alookup k s.pkt_data = some ls) :
    ls.length = s.packet_cnt := by
  have hk : alookup "delta_ns" (FlowFeatures.start t0).pkt_data = none := by
    simp only [FlowFeatures.start]
    decide
  have hs : s = FlowFeatures.start t0 := runInsert_fix hz l _ hk s h
  subst hs
  have hls : ls = [] := alookup_map_nil PACKET_FT_CLASSES k ls h2
  subst hls
  rfl

/-- Witness for c9_sample_count_invariant: one malformed packet, the
packet_iat class. -/
theorem c9_sample_count_invariant_witness :
    ([] : List Nat).length = (FlowFeatures.start 0).packet_cnt :=
  c9_sample_count_invariant 1 0 [(5, pktBad)] (FlowFeatures.start 0)
    (by decide) "packet_iat" [] (by decide)

/-- aggregate on an empty sample vector short-circuits to the sentinel. -/
theorem aggregate_nil (a : String) : aggregate a [] = 0 := by
  simp [aggregate]

/-- Initial-map lookups succeed with the empty vector for catalogue keys. -/
theorem alookup_map_nil_mem (ks : List String) (c : String) (hc : c ∈ ks) :
    alookup c (ks.map fun k => (k, ([] : List Nat))) = some [] := by
  induction ks with
  | nil => cases hc
  | cons k rest ih =>
    by_cases h : c = k
    · simp [alookup, h]
    · rw [List.map_cons, alookup, if_neg h]
      exact ih (by
        rcases List.mem_cons.mp hc with h2 | h2
        · exact absurd h2 h
        · exact h2)

/-- get_features over classes that all map to empty vectors yields twelve
zeros per class. -/
theorem gfGo_zero (s : FlowFeatures)
    (hs : s.pkt_data = PACKET_FT_CLASSES.map fun k => (k, ([] : List Nat)))
    (cs : List String) (hcs : ∀ c ∈ cs, c ∈ PACKET_FT_CLASSES) :
    getFeaturesGo s none cs = some (List.replicate (12 * cs.length) 0) := by
  induction cs with
  | nil => simp [getFeaturesGo]
  | cons c rest ih =>
    have hlook : alookup c s.pkt_data = some [] := by
      rw [hs]
      exact alookup_map_nil_mem _ _ (hcs c (List.mem_cons_self c rest))
    have hrest := ih (fun x hx => hcs x (List.mem_cons_of_mem c hx))
    rw [getFeaturesGo, hlook]
    simp only [Option.getD, List.length_nil, List.take_nil, Nat.le_refl,
      if_true, hrest]
    have hmap : AGGREGATORS.map (fun a => aggregate a []) =
        List.replicate 12 (0 : ℝ) := by
      simp [AGGREGATORS, aggregate_nil, List.replicate]
    rw [hmap, ← List.replicate_add]
    have : 12 + 12 * rest.length = 12 * (rest.length + 1) := by ring
    rw [this]
    simp [List.length_cons]

/-- C5: finalizing with zero observed packets yields the defined sentinel
for every aggregator and never panics: aggregate returns 0.0 for every
aggregator name on an empty vector, get_features on a fresh accumulator
returns (without any unwrap panic) the 360-entry all-zero vector, and the
features.rs median helper returns its NaN sentinel on an empty history. -/
theorem c5_empty_sentinel :
    (∀ a : String, aggregate a [] = 0) ∧
    getFeatures (FlowFeatures.start 0) none =
      some (List.replicate 360 (0 : ℝ)) ∧
    medianF [] = none := by
  refine ⟨aggregate_nil, ?_, rfl⟩
  have h := gfGo_zero (FlowFeatures.start 0) rfl PACKET_FT_CLASSES
    (fun c hc => hc)
  rw [getFeatures, h]
  norm_num [PACKET_FT_CLASSES]

/-- Evaluation of the statrs R-8 lower quartile on the spec sample set. -/
theorem quantR8_q1_15 : quantR8 [1, 2, 3, 4, 5] (1 / 4) = 5 / 3 := by
  norm_num [quantR8, sortN, insortN, Int.toNat_ofNat, List.getD]

/-- Evaluation of the statrs R-8 upper quartile on the spec sample set. -/
theorem quantR8_q3_15 : quantR8 [1, 2, 3, 4, 5] (3 / 4) = 13 / 3 := by
  norm_num [quantR8, sortN, insortN, Int.reduceToNat, List.getD]
  norm_num [show ((4 : ℤ).toNat) = 4 from rfl, List.getElem?_cons_succ,
    List.getElem?_cons_zero, List.getElem_cons_succ, List.getElem_cons_zero]

/-- C4 counterexample: on the sample set [1,2,3,4,5] of the claim, the q1
aggregator returns 5/3 (statrs R-8 interpolation), not the claimed 2, and
the kurt aggregator is the hard-coded constant -1.2 regardless of the data,
which is neither the population moment kurtosis (17/10 here) nor its excess
variant (-13/10), so it is no moment-based formula at all. -/
theorem c4_aggregate_counterexample :
    aggregate "q1" [1, 2, 3, 4, 5] = (5 : ℝ) / 3 ∧
    aggregate "q1" [1, 2, 3, 4, 5] ≠ 2 ∧
    aggregate "kurt" [1, 2, 3, 4, 5] = (-1.2 : ℝ) ∧
    aggregate "kurt" [10, 20, 300, 4000, 50000] = (-1.2 : ℝ) ∧
    (-1.2 : ℝ) ≠ 17 / 10 ∧
    (-1.2 : ℝ) ≠ -13 / 10 := by
  have hq : aggregate "q1" [1, 2, 3, 4, 5] = (5 : ℝ) / 3 := by
    rw [show aggregate "q1" [1, 2, 3, 4, 5] =
      ((quantR8 [1, 2, 3, 4, 5] (1 / 4) : ℚ) : ℝ) from by simp [aggregate]]
    rw [quantR8_q1_15]
    norm_num
  refine ⟨hq, ?_, by simp [aggregate], by simp [aggregate], by norm_num,
    by norm_num⟩
  rw [hq]
  norm_num

/-- C4 amended: on [1,2,3,4,5] the aggregate catalogue yields med = 3,
min = 1, max = 5, sum = 15, mean = 3, dist = 5, first = 1 as the claim
lists, but q1 = 5/3 and q3 = 13/3 (statrs R-8 interpolated quartiles, not
the inclusive-middle rule), and kurt is the constant placeholder -1.2; the
std and skew arms delegate to the statrs bias-corrected sample (not
population) statistics. -/
theorem c4_aggregate_reference :
    aggregate "med" [1, 2, 3, 4, 5] = 3 ∧
    aggregate "q1" [1, 2, 3, 4, 5] = (5 : ℝ) / 3 ∧
    aggregate "q3" [1, 2, 3, 4, 5] = (13 : ℝ) / 3 ∧
    aggregate "min" [1, 2, 3, 4, 5] = 1 ∧
    aggregate "max" [1, 2, 3, 4, 5] = 5 ∧
    aggregate "sum" [1, 2, 3, 4, 5] = 15 ∧
    aggregate "mean" [1, 2, 3, 4, 5] = 3 ∧
    aggregate "dist" [1, 2, 3, 4, 5] = 5 ∧
    aggregate "first" [1, 2, 3, 4, 5] = 1 ∧
    aggregate "kurt" [1, 2, 3, 4, 5] = (-1.2 : ℝ) := by
  refine ⟨?_, ?_, ?_, ?_, ?_, ?_, ?_, ?_, ?_, ?_⟩
  · rw [show aggregate "med" [1, 2, 3, 4, 5] =
      ((statMedianN [1, 2, 3, 4, 5] : ℚ) : ℝ) from by simp [aggregate]]
    norm_num [statMedianN, sortN, insortN]
  · rw [show aggregate "q1" [1, 2, 3, 4, 5] =
      ((quantR8 [1, 2, 3, 4, 5] (1 / 4) : ℚ) : ℝ) from by simp [aggregate]]
    rw [quantR8_q1_15]
    norm_num
  · rw [show aggregate "q3" [1, 2, 3, 4, 5] =
      ((quantR8 [1, 2, 3, 4, 5] (3 / 4) : ℚ) : ℝ) from by simp [aggregate]]
    rw [quantR8_q3_15]
    norm_num
  · simp [aggregate]
  · simp [aggregate]
  · simp [aggregate, sumWrap, wrap32]
  · rw [show aggregate "mean" [1, 2, 3, 4, 5] =
      ((meanQ [1, 2, 3, 4, 5] : ℚ) : ℝ) from by simp [aggregate]]
    norm_num [meanQ]
  · simp [aggregate, distinctCount]
  · simp [aggregate]
  · simp [aggregate]

/-- Lifecycle invariant: the sink has been invoked exactly once on a
terminated flow and never on a live one, and every step preserves this. -/
theorem stepPF_inv (hz : Nat) (lc : PFLifecycle) (ev : PFEvent)
    (h : lc.emitted.length = if lc.terminated then 1 else 0) :
    (stepPF hz lc ev).emitted.length =
      if (stepPF hz lc ev).terminated then 1 else 0 := by
  rcases ev with ⟨curr, seg⟩ | sk | _
  · by_cases ht : lc.terminated = true
    · simp [stepPF, ht, h]
    · by_cases he : earlyTermPF (updatePF hz lc.tracked curr seg) = true
      · simp [stepPF, ht, he, terminatePF, h]
      · simp [stepPF, ht, he, h]
  · by_cases ht : lc.terminated = true <;> simp [stepPF, ht, h]
  · by_cases ht : lc.terminated = true <;> simp [stepPF, terminatePF, ht, h]

/-- The lifecycle invariant holds after any event sequence. -/
theorem runPF_inv (hz : Nat) (evs : List PFEvent) (lc : PFLifecycle)
    (h : lc.emitted.length = if lc.terminated then 1 else 0) :
    (runPF hz lc evs).emitted.length =
      if (runPF hz lc evs).terminated then 1 else 0 := by
  induction evs generalizing lc with
  | nil => exact h
  | cons ev rest ih =>
    show (runPF hz (stepPF hz lc ev) rest).emitted.length = _
    exact ih _ (stepPF_inv hz lc ev h)

/-- C1: across any event sequence followed by the external closure signal
(the sequence itself may contain early terminations and further closure
signals), the sink is invoked exactly once; and terminate on an
already-terminated flow is a no-op, producing no second record. -/
theorem c1_invoke_exactly_once :
    (∀ (hz t0 : Nat) (evs : List PFEvent),
      (runPF hz (PFLifecycle.create t0) (evs ++ [PFEvent.close])).emitted.length
        = 1) ∧
    (∀ lc : PFLifecycle, lc.terminated = true → terminatePF lc = lc) := by
  constructor
  · intro hz t0 evs
    have hinv := runPF_inv hz evs (PFLifecycle.create t0)
      (by simp [PFLifecycle.create])
    have happ : runPF hz (PFLifecycle.create t0) (evs ++ [PFEvent.close]) =
        stepPF hz (runPF hz (PFLifecycle.create t0) evs) PFEvent.close := by
      simp [runPF, List.foldl_append]
    rw [happ]
    by_cases ht : (runPF hz (PFLifecycle.create t0) evs).terminated = true
    · simp only [ht, if_true] at hinv
      simp [stepPF, terminatePF, ht, hinv]
    · simp only [ht, if_false] at hinv
      simp [stepPF, terminatePF, ht, hinv]
  · intro lc h
    simp [terminatePF, h]

/-- Witness for c1_invoke_exactly_once: a double external close still yields
one record, and terminate is a no-op on a concrete terminated flow. -/
theorem c1_invoke_exactly_once_witness :
    (runPF 1 (PFLifecycle.create 0) ([PFEvent.close] ++ [PFEvent.close])).emitted.length
      = 1 ∧
    terminatePF (terminatePF (PFLifecycle.create 0)) =
      terminatePF (PFLifecycle.create 0) :=
  ⟨c1_invoke_exactly_once.1 1 0 [PFEvent.close],
   c1_invoke_exactly_once.2 (terminatePF (PFLifecycle.create 0)) rfl⟩

/-- Packet events of a list of (rdtsc reading, packet) pairs. -/
def mapPkt (prs : List (Nat × L4Pdu)) : List PFEvent :=
  prs.map (fun pr => PFEvent.pkt pr.1 pr.2)

/-- A terminated flow ignores every further event. -/
theorem runPF_terminated (hz : Nat) (evs : List PFEvent) (lc : PFLifecycle)
    (h : lc.terminated = true) : runPF hz lc evs = lc := by
  induction evs with
  | nil => rfl
  | cons ev rest ih =>
    have hstep : stepPF hz lc ev = lc := by
      rcases ev with ⟨curr, seg⟩ | sk | _ <;> simp [stepPF, terminatePF, h]
    show runPF hz (stepPF hz lc ev) rest = lc
    rw [hstep]
    exact ih

/-- One live-flow packet step, written as a conditional on the
early-termination predicate. -/
theorem stepPF_live (hz : Nat) (lc : PFLifecycle) (curr : Nat) (seg : L4Pdu)
    (hterm : lc.terminated = false) :
    stepPF hz lc (PFEvent.pkt curr seg) =
      (if earlyTermPF (updatePF hz lc.tracked curr seg) then
        terminatePF { lc with tracked := updatePF hz lc.tracked curr seg }
      else { lc with tracked := updatePF hz lc.tracked curr seg }) := by
  simp [stepPF, hterm]

/-- Feeding a live flow exactly the number of fully parseable packets that
brings the total to the 2048 ceiling accumulates every one of them and then
fires the early-termination path, finalizing the flow. -/
theorem runPF_fills (hz : Nat) (prs : List (Nat × L4Pdu)) :
    ∀ lc : PFLifecycle, lc.terminated = false →
    lc.tracked.packets.length < 2048 →
    lc.tracked.packets.length + prs.length = 2048 →
    (∀ pr ∈ prs, (pfFrom pr.2 lc.tracked.start_tsc pr.1 hz).isSome) →
    runPF hz lc (mapPkt prs) =
      terminatePF { lc with tracked := { lc.tracked with
        packets := lc.tracked.packets ++ prs.map
          (fun pr => (pfFrom pr.2 lc.tracked.start_tsc pr.1 hz).getD pfDefault) } } := by
  induction prs with
  | nil =>
    intro lc hterm hlt hlen hall
    simp only [List.length_nil, Nat.add_zero] at hlen
    exact absurd hlen (by omega)
  | cons p rest ih =>
    intro lc hterm hlt hlen hall
    obtain ⟨pf, hpf⟩ : ∃ q, pfFrom p.2 lc.tracked.start_tsc p.1 hz = some q :=
      Option.isSome_iff_exists.mp (hall p (List.mem_cons_self p rest))
    have hupd : updatePF hz lc.tracked p.1 p.2 =
        { lc.tracked with packets := lc.tracked.packets ++ [pf] } := by
      simp [updatePF, hpf]
    have hlen2 : lc.tracked.packets.length + (rest.length + 1) = 2048 := by
      simpa [Nat.add_comm] using hlen
    show runPF hz (stepPF hz lc (PFEvent.pkt p.1 p.2)) (mapPkt rest) = _
    rw [stepPF_live hz lc p.1 p.2 hterm, hupd]
    by_cases hrest : rest.length = 0
    · have hnil : rest = [] := List.length_eq_zero.mp hrest
      subst hnil
      have hfire : earlyTermPF
          { lc.tracked with packets := lc.tracked.packets ++ [pf] } = true := by
        simp only [earlyTermPF, List.length_append, List.length_singleton,
          decide_eq_true_eq]
        omega
      rw [if_pos hfire, runPF_terminated]
      · simp [hpf]
      · simp [terminatePF, hterm]
    · have hquiet : earlyTermPF
          { lc.tracked with packets := lc.tracked.packets ++ [pf] } = false := by
        simp only [earlyTermPF, List.length_append, List.length_singleton,
          decide_eq_false_iff_not]
        omega
      rw [if_neg (by rw [hquiet]; exact Bool.false_ne_true)]
      have hih := ih { lc with tracked :=
          { lc.tracked with packets := lc.tracked.packets ++ [pf] } }
        hterm
        (by simp; omega)
        (by simp; omega)
        (by
          intro pr hpr
          exact hall pr (List.mem_cons_of_mem p hpr))
      rw [hih]
      simp [hpf, List.append_assoc]

/-- C7: the early-termination predicate of packet_features.rs is true
exactly when the accumulated per-flow sample count (both directions share
the one packets vector) has reached the configured ceiling of 2048; and a
synthetic flow of 2048 + 50 fully parseable packets produces exactly one
record, holding exactly the first 2048 samples, with the remaining 50
packets never accumulated into the terminated instance. -/
theorem c7_early_termination :
    (∀ s : TrackedPF, earlyTermPF s = true ↔ 2048 ≤ s.packets.length) ∧
    (∀ (hz t0 : Nat) (prs : List (Nat × L4Pdu)),
      prs.length = 2098 →
      (∀ pr ∈ prs, (pfFrom pr.2 t0 pr.1 hz).isSome) →
      (runPF hz (PFLifecycle.create t0) (mapPkt prs)).emitted =
        [{ sni := "", packets := (prs.take 2048).map
            (fun pr => (pfFrom pr.2 t0 pr.1 hz).getD pfDefault) }] ∧
      (runPF hz (PFLifecycle.create t0) (mapPkt prs)).tracked.packets.length
        = 2048) := by
  constructor
  · intro s
    simp [earlyTermPF]
  · intro hz t0 prs hlen hall
    have hsplit : runPF hz (PFLifecycle.create t0) (mapPkt prs) =
        runPF hz (runPF hz (PFLifecycle.create t0) (mapPkt (prs.take 2048)))
          (mapPkt (prs.drop 2048)) := by
      rw [show mapPkt (prs.take 2048) = (mapPkt prs).take 2048 from by
            simp [mapPkt, List.map_take],
          show mapPkt (prs.drop 2048) = (mapPkt prs).drop 2048 from by
            simp [mapPkt, List.map_drop]]
      rw [runPF, runPF, runPF, ← List.foldl_append, List.take_append_drop]
    have htake : (prs.take 2048).length = 2048 := by
      rw [List.length_take, hlen]
      omega
    have hfill := runPF_fills hz (prs.take 2048) (PFLifecycle.create t0)
      rfl (by simp [PFLifecycle.create, TrackedPF.start])
      (by simp [PFLifecycle.create, TrackedPF.start, htake])
      (by
        intro pr hpr
        exact hall pr (List.take_subset 2048 prs hpr))
    have hterm2 : (runPF hz (PFLifecycle.create t0)
        (mapPkt (prs.take 2048))).terminated = true := by
      rw [hfill]
      simp [terminatePF, PFLifecycle.create]
    rw [hsplit, runPF_terminated hz _ _ hterm2, hfill]
    constructor
    · simp [terminatePF, PFLifecycle.create, TrackedPF.start, onTermRecordPF]
    · simp [terminatePF, PFLifecycle.create, TrackedPF.start, htake]
      omega

/-- Witness for c7_early_termination: 2098 copies of a fully parseable
packet with clock reading 0, frequency 1, flow created at counter 0. -/
theorem c7_early_termination_witness :
    (runPF 1 (PFLifecycle.create 0)
        (mapPkt (List.replicate 2098 (0, pktSyn)))).emitted =
      [{ sni := "", packets := ((List.replicate 2098 ((0 : Nat), pktSyn)).take 2048).map
          (fun pr => (pfFrom pr.2 0 pr.1 1).getD pfDefault) }] ∧
    (runPF 1 (PFLifecycle.create 0)
        (mapPkt (List.replicate 2098 (0, pktSyn)))).tracked.packets.length
      = 2048 :=
  c7_early_termination.2 1 0 (List.replicate 2098 (0, pktSyn))
    (by rw [List.length_replicate])
    (by
      intro pr hpr
      rw [List.eq_of_mem_replicate hpr]
      rfl)
